import Mathlib

/-!
Shallow embedding of `stumfixer.py`, a single-file Python daemon that
watches the active pulseaudio card profile and corrects it.  Pure string
manipulation (Python `str.strip`, `str.startswith`, slicing, `str(int)`,
`int(str)`) is embedded as executable Lean functions on `List Char`;
the process state visible to the program (pid file, log file contents,
stderr of the foreground process, spawned subprocesses, delivered
signals) is a `World` record, and each Python function becomes a Lean
function on `World`, returning `Except PyErr World` where the Python
may raise.
-/

/-- Characters Python treats as whitespace in `str.strip()` and `int(s)`
(the subset that can actually occur in this program's data). -/
def pySpace (c : Char) : Bool :=
  c = ' ' || c = '\t' || c = '\n' || c = '\r'

/-- Python `str.strip()` on the underlying character list. -/
def pyStripChars (l : List Char) : List Char :=
  ((l.dropWhile pySpace).reverse.dropWhile pySpace).reverse

/-- Python `str.strip()`. -/
def pyStrip (s : String) : String :=
  String.mk (pyStripChars s.data)

/-- Python `s.startswith(p)`. -/
def pyStartswith (s p : String) : Bool :=
  p.data.isPrefixOf s.data

/-- Python slice `s[k:-1]`: characters from index `k` up to (excluding)
the last one. -/
def pySliceDropLast (s : String) (k : Nat) : String :=
  String.mk ((s.data.drop k).dropLast)

/-- Little-endian decimal digit list of `n`, with explicit fuel so the
recursion is structural (fuel `n` always suffices). -/
def digitsFuel : Nat → Nat → List Nat
  | 0, _ => []
  | fuel + 1, n => if n = 0 then [] else n % 10 :: digitsFuel fuel (n / 10)

/-- Little-endian decimal digits of `n` (empty for 0). -/
def natDigits (n : Nat) : List Nat := digitsFuel n n

/-- The ASCII character of the decimal digit `d`. -/
def digitChar (d : Nat) : Char := Char.ofNat (48 + d)

/-- Python `str(n)` for a nonnegative integer: decimal digits, most
significant first. -/
def pyStr (n : Nat) : String :=
  if n = 0 then "0" else String.mk ((natDigits n).reverse.map digitChar)

/-- Value of a little-endian decimal digit list. -/
def ofDigitsLE : List Nat → Nat
  | [] => 0
  | d :: ds => d + 10 * ofDigitsLE ds

/-- The numeric value of an ASCII decimal digit, `none` otherwise. -/
def charDigit (c : Char) : Option Nat :=
  if 48 ≤ c.toNat && c.toNat ≤ 57 then some (c.toNat - 48) else none

/-- Digit-by-digit accumulator of Python `int`: `none` accumulator means
no digit has been seen yet; any non-digit character is an error. -/
def parseDigitsAcc : List Char → Option Nat → Option Nat
  | [], acc => acc
  | c :: cs, acc =>
    match charDigit c with
    | some d => parseDigitsAcc cs (some (10 * acc.getD 0 + d))
    | none => none

/-- Python `int(s)` for a nonnegative decimal string: strip whitespace,
then parse a nonempty run of digits (`none` models the `ValueError`). -/
def pyIntNat (s : String) : Option Nat :=
  parseDigitsAcc (pyStripChars s.data) none


/-!
## Process-state model

`World` records everything of the process environment the program reads
or writes: the pid file (contents, `none` when absent), the log file
(the list of chunks written to it; the daemon's stdout and stderr are
both redirected there), the foreground stderr, the subprocesses spawned
via `Popen`, the signals delivered via `os.kill`, and whether the
`atexit` cleanup and the SIGTERM handler have been installed.
-/

structure World where
  pidfile : Option String
  logLines : List String
  errLines : List String
  spawned : List (List String)
  killed : List (Nat × Nat)
  cleanupRegistered : Bool
  handlerInstalled : Bool
  deriving DecidableEq

def emptyWorld : World :=
  { pidfile := none, logLines := [], errLines := [], spawned := [],
    killed := [], cleanupRegistered := false, handlerInstalled := false }

/-- A Python exception that escapes the code under study. -/
inductive PyErr where
  | systemError (msg : String)
  | attributeError (msg : String)
  deriving DecidableEq

/-- `sys.stdout.write(s)` in the daemon (stdout is redirected to the
log file). -/
def writeStdout (s : String) (w : World) : World :=
  { w with logLines := w.logLines ++ [s] }

/-- `print(s, file=sys.stderr)` in the foreground process. -/
def pushErr (s : String) (w : World) : World :=
  { w with errLines := w.errLines ++ [s] }

/-- `subprocess.Popen(args)`. -/
def spawnCmd (args : List String) (w : World) : World :=
  { w with spawned := w.spawned ++ [args] }

/-!
## `daemonize` (stumfixer.py lines 14-61)

The fork/setsid/dup2 plumbing has no observable effect on `World`; what
matters is the order of the observable steps: the pid-file existence
check happens before anything else (`exit(1)` on conflict, silently),
fork failures raise `RuntimeError`, and on success the *final* process
writes its own pid (`print(os.getpid(), file=f)`, i.e. `str(pid)` plus
a newline), registers the `atexit` cleanup that removes the pid file,
and installs the SIGTERM handler.  `fork1Ok`/`fork2Ok` say whether the
two `os.fork` calls succeed, `finalPid` is the pid of the process that
survives both forks.
-/

inductive DaemonizeResult where
  | conflict
  | forkFailed (msg : String)
  | daemonized (pid : Nat)
  deriving DecidableEq

def daemonize (w : World) (fork1Ok fork2Ok : Bool) (finalPid : Nat) :
    DaemonizeResult × World :=
  if w.pidfile.isSome then (.conflict, w)
  else if fork1Ok = false then (.forkFailed "fork #1 failed.", w)
  else if fork2Ok = false then (.forkFailed "fork #2 failed.", w)
  else (.daemonized finalPid,
    { w with pidfile := some (pyStr finalPid ++ "\n"),
             cleanupRegistered := true,
             handlerInstalled := true })

/-!
## Process termination (SignalGate + atexit semantics)

CPython runs `atexit` callbacks on normal interpreter exit, on
`SystemExit` (which both `exit(1)` and the SIGTERM handler raise) and
on any other uncaught exception; an uncaught exception exits the
process with status 1.  The SIGTERM handler writes one timestamped
line (`time.ctime()` is the opaque parameter `t`) and raises
`SystemExit(1)`.  If no handler is installed, SIGTERM kills the
process without running `atexit` (status 128+15).
-/

inductive ExitPath where
  | normalReturn
  | sigterm
  | fatalError
  deriving DecidableEq

def runAtexitHooks (w : World) : World :=
  if w.cleanupRegistered then { w with pidfile := none } else w

def quitLine (t : String) : String := t ++ ": Quitting daemon\n"

def sigtermHandlerStep (t : String) (w : World) : World :=
  writeStdout (quitLine t) w

def terminate (path : ExitPath) (t : String) (w : World) : World × Nat :=
  match path with
  | .normalReturn => (runAtexitHooks w, 0)
  | .sigterm =>
      if w.handlerInstalled then (runAtexitHooks (sigtermHandlerStep t w), 1)
      else (w, 143)
  | .fatalError => (runAtexitHooks w, 1)

/-!
## `switch_audio_to` (lines 64-77)

Returns immediately when the active profile already equals the target
(no log line, no subprocess); otherwise writes one timestamped line and
spawns `pacmd set-card-profile 0 <name>`.  `applyOk` says whether the
`Popen` call succeeds; on failure the raised error escapes uncaught
(`main` has no handler for it).  The error message reuses the
`list-cards` text, exactly as the source does (its interpolated return
code is elided). -/

def switchLine (t name : String) : String :=
  t ++ ": Setting card profile to " ++ name ++ "\n"

def switch_audio_to (t active name : String) (applyOk : Bool) (w : World) :
    Except PyErr World :=
  if active = name then .ok w
  else
    let w1 := writeStdout (switchLine t name) w
    if applyOk then .ok (spawnCmd ["pacmd", "set-card-profile", "0", name] w1)
    else .error (.systemError "Could not run pacmd list-cards")

/-!
## `get_audio_info` (lines 80-107)

Folds over the lines of `pacmd list-cards` output: each line is
stripped, a line starting with `active profile` sets the active profile
to `line[17:-1]`, a line starting with `device.product.name` sets the
product to `line[23:-1]` (later lines overwrite earlier ones).  If no
active profile was seen, raises `SystemError("Active profile is none")`;
the product may remain `None`. -/

def parseCardsLine (acc : Option String × Option String) (raw : String) :
    Option String × Option String :=
  let line := pyStrip raw
  if pyStartswith line "active profile" then (some (pySliceDropLast line 17), acc.2)
  else if pyStartswith line "device.product.name" then
    (acc.1, some (pySliceDropLast line 23))
  else acc

def get_audio_info (popenOk : Bool) (output : List String) :
    Except PyErr (String × Option String) :=
  if popenOk then
    match output.foldl parseCardsLine (none, none) with
    | (none, _) => .error (.systemError "Active profile is none")
    | (some ap, product) => .ok (ap, product)
  else .error (.systemError "Could not run pacmd list-cards")

/-!
## `check_log_file_size` (lines 110-115)

If the log file's size exceeds `MAXLOGSIZE`, truncate it to 0 bytes and
then write one timestamped notice (stdout is in append mode, so the
notice lands in the freshly truncated file); otherwise do nothing. -/

def MAXLOGSIZE : Nat := 1000000

def logSizeOf (lines : List String) : Nat :=
  (lines.map String.length).sum

def cleanLine (t : String) : String := t ++ ": Cleaning up log file!\n"

def truncateLog (w : World) : World := { w with logLines := [] }

def check_log_file_size (t : String) (w : World) : World :=
  if logSizeOf w.logLines > MAXLOGSIZE then
    writeStdout (cleanLine t) (truncateLog w)
  else w

/-!
## `main` (lines 118-134) — one iteration of the control loop

A `Tick` is the environment of one iteration: the timestamp, whether
`Popen` of `pacmd list-cards` succeeds, the lines it prints, and
whether the apply-side `Popen` succeeds.  `mainIter` is the body of the
`while True` loop; `runLoop` iterates it over a finite schedule of
ticks, stopping at the first uncaught exception (the real loop is
infinite; `.ok` just means the schedule was exhausted with the loop
still alive). -/

structure Tick where
  t : String
  popenOk : Bool
  output : List String
  applyOk : Bool
  deriving DecidableEq

def mainIter (tk : Tick) (w : World) : Except PyErr World :=
  match get_audio_info tk.popenOk tk.output with
  | .error e => .error e
  | .ok (active_profile, product) =>
    match product with
    | none => .error (.attributeError "NoneType object has no attribute startswith")
    | some p =>
      match
        (if pyStartswith p "DELL" then
          switch_audio_to tk.t active_profile
            "output:analog-stereo+input:analog-stereo" tk.applyOk w
        else if pyStartswith p "BenQ" then
          switch_audio_to tk.t active_profile "output:hdmi-stereo" tk.applyOk w
        else
          switch_audio_to tk.t active_profile
            "output:analog-stereo+input:analog-stereo" tk.applyOk w)
      with
      | .error e => .error e
      | .ok w1 => .ok (check_log_file_size tk.t w1)

def runLoop (ticks : List Tick) (w : World) : Except PyErr World :=
  match ticks with
  | [] => .ok w
  | tk :: rest =>
    match mainIter tk w with
    | .error e => .error e
    | .ok w1 => runLoop rest w1

/-- Exit status of the daemon after running the schedule: `some 1` when
an uncaught exception killed the process (CPython exits with status 1),
`none` when the schedule ended with the loop still running. -/
def loopExit (ticks : List Tick) (w : World) : Option Nat :=
  match runLoop ticks w with
  | .error _ => some 1
  | .ok _ => none

/-!
## `__main__` (lines 137-161): the CLI dispatcher

`stop` reads the pid file (if present), parses it with `int`, and
delivers SIGTERM (signal 15) to that pid, then falls off the end of the
script (exit 0).  An absent pid file prints `Not running` and exits 1.
Any argument other than `start`/`stop` prints an `Unknown command`
message (Python's `{!r}` wraps the argument in quotes, `pyRepr`); a
missing or extra argument prints the usage line.  Both go to stderr
with exit 1.  `start` runs `daemonize` (conflict exits 1 silently;
`RuntimeError` from a failed fork is printed) and then enters the
control loop, which never returns. -/

def pyRepr (s : String) : String :=
  String.mk (Char.ofNat 39 :: (s.data ++ [Char.ofNat 39]))

def usageLine (prog : String) : String :=
  "Usage: " ++ prog ++ " [start|stop]\n"

def unknownCmdLine (a : String) : String :=
  "Unknown command " ++ pyRepr a ++ "\n"

def stopCmd (w : World) : World × Nat :=
  match w.pidfile with
  | some content =>
    match pyIntNat content with
    | some pid => ({ w with killed := w.killed ++ [(pid, 15)] }, 0)
    | none => (pushErr "ValueError: invalid literal for int\n" w, 1)
  | none => (pushErr "Not running\n" w, 1)

structure Env where
  fork1Ok : Bool
  fork2Ok : Bool
  childPid : Nat
  deriving DecidableEq

inductive CliResult where
  | exited (w : World) (code : Nat)
  | daemonRunning (w : World) (pid : Nat)
  deriving DecidableEq

def cliMain (argv : List String) (env : Env) (w : World) : CliResult :=
  match argv with
  | [_, arg] =>
    if arg = "start" then
      match daemonize w env.fork1Ok env.fork2Ok env.childPid with
      | (.conflict, w1) => .exited w1 1
      | (.forkFailed msg, w1) => .exited (pushErr (msg ++ "\n") w1) 1
      | (.daemonized p, w1) => .daemonRunning w1 p
    else if arg = "stop" then
      let r := stopCmd w
      .exited r.1 r.2
    else .exited (pushErr (unknownCmdLine arg) w) 1
  | prog :: _ => .exited (pushErr (usageLine prog) w) 1
  | [] => .exited (pushErr (usageLine "") w) 1

/-!
## Concrete inputs used by the witness theorems
-/

def bigLog : String := String.mk (List.replicate 1000001 'a')

def bigWorld : World := { emptyWorld with logLines := [bigLog] }

def conflictWorld : World := { emptyWorld with pidfile := some (pyStr 500 ++ "\n") }

/-- A tick whose `pacmd list-cards` output names a BenQ product while the
active profile is the analog one, and whose apply-side `Popen` fails. -/
def c5failTick : Tick :=
  { t := "T1", popenOk := true,
    output := ["    active profile: <output:analog-stereo+input:analog-stereo>\n",
               "    device.product.name = \"BenQ GW2270\"\n"],
    applyOk := false }

/-- A healthy tick (stable hdmi profile, BenQ product). -/
def c5okTick : Tick :=
  { t := "T2", popenOk := true,
    output := ["    active profile: <output:hdmi-stereo>\n",
               "    device.product.name = \"BenQ GW2270\"\n"],
    applyOk := true }

/-- A tick whose output has a product line but no `active profile` line. -/
def c6tick : Tick :=
  { t := "T", popenOk := true,
    output := ["    device.product.name = \"DELL U2718Q\"\n"],
    applyOk := true }

/-- A tick whose output has an `active profile` line but no product line. -/
def c10tick : Tick :=
  { t := "T", popenOk := true,
    output := ["    active profile: <output:hdmi-stereo>\n"],
    applyOk := true }
theorem dropWhile_pySpace_of_all_false {l : List Char}
    (h : ∀ c ∈ l, pySpace c = false) : l.dropWhile pySpace = l := by
  cases l with
  | nil => rfl
  | cons c cs =>
    have hc : pySpace c = false := h c (by simp)
    simp [List.dropWhile, hc]

theorem pyStripChars_append_newline {D : List Char} (hne : D ≠ [])
    (hd : ∀ c ∈ D, pySpace c = false) :
    pyStripChars (D ++ ['\n']) = D := by
  obtain ⟨c, cs, rfl⟩ := List.exists_cons_of_ne_nil hne
  have hc : pySpace c = false := hd c (by simp)
  have h1 : (c :: cs ++ ['\n']).dropWhile pySpace = c :: (cs ++ ['\n']) := by
    simp [List.dropWhile, hc]
  have hnl : pySpace '\n' = true := by decide
  have h2 : ∀ x ∈ cs.reverse ++ [c], pySpace x = false := by
    intro x hx
    rcases List.mem_append.mp hx with hx | hx
    · exact hd x (by simp [List.mem_reverse.mp hx])
    · simp at hx; subst hx; exact hc
  unfold pyStripChars
  rw [h1]
  have h3 : (c :: (cs ++ ['\n'])).reverse = '\n' :: (cs.reverse ++ [c]) := by
    simp
  rw [h3]
  rw [show ('\n' :: (cs.reverse ++ [c])).dropWhile pySpace
        = (cs.reverse ++ [c]).dropWhile pySpace by simp [List.dropWhile, hnl]]
  rw [dropWhile_pySpace_of_all_false h2]
  simp

theorem ofDigitsLE_digitsFuel : ∀ fuel n, n ≤ fuel →
    ofDigitsLE (digitsFuel fuel n) = n := by
  intro fuel
  induction fuel with
  | zero =>
    intro n h
    have : n = 0 := Nat.le_zero.mp h
    subst this
    simp [digitsFuel, ofDigitsLE]
  | succ f ih =>
    intro n h
    by_cases h0 : n = 0
    · subst h0; simp [digitsFuel, ofDigitsLE]
    · have hdiv : n / 10 ≤ f := by
        have : n / 10 < n := Nat.div_lt_self (Nat.pos_of_ne_zero h0) (by omega)
        omega
      simp only [digitsFuel, h0, if_false, ofDigitsLE]
      rw [ih _ hdiv]
      omega

theorem digitsFuel_lt_ten : ∀ fuel n d, d ∈ digitsFuel fuel n → d < 10 := by
  intro fuel
  induction fuel with
  | zero => intro n d h; simp [digitsFuel] at h
  | succ f ih =>
    intro n d h
    by_cases h0 : n = 0
    · subst h0; simp [digitsFuel] at h
    · simp only [digitsFuel, h0, if_false, List.mem_cons] at h
      rcases h with h | h
      · subst h; exact Nat.mod_lt _ (by omega)
      · exact ih _ _ h

theorem digitsFuel_ne_nil {f n : Nat} (h0 : n ≠ 0) (hle : n ≤ f) :
    digitsFuel f n ≠ [] := by
  cases f with
  | zero => omega
  | succ g => simp [digitsFuel, h0]

theorem charDigit_digitChar : ∀ d, d < 10 → charDigit (digitChar d) = some d := by
  decide

theorem pySpace_digitChar : ∀ d, d < 10 → pySpace (digitChar d) = false := by
  decide

theorem parseDigitsAcc_map (ds : List Nat) (hd : ∀ d ∈ ds, d < 10) :
    ∀ a, parseDigitsAcc (ds.map digitChar) (some a)
      = some (ds.foldl (fun x d => 10 * x + d) a) := by
  induction ds with
  | nil => intro a; rfl
  | cons d tail ih =>
    intro a
    have hdd : d < 10 := hd d (by simp)
    have htail : ∀ x ∈ tail, x < 10 := fun x hx => hd x (by simp [hx])
    simp only [List.map_cons, parseDigitsAcc, charDigit_digitChar d hdd,
      Option.getD_some, List.foldl_cons]
    exact ih htail (10 * a + d)

theorem parseDigitsAcc_map_none (ds : List Nat) (hne : ds ≠ [])
    (hd : ∀ d ∈ ds, d < 10) :
    parseDigitsAcc (ds.map digitChar) none
      = some (ds.foldl (fun x d => 10 * x + d) 0) := by
  obtain ⟨d, tail, rfl⟩ := List.exists_cons_of_ne_nil hne
  have hdd : d < 10 := hd d (by simp)
  have htail : ∀ x ∈ tail, x < 10 := fun x hx => hd x (by simp [hx])
  simp only [List.map_cons, parseDigitsAcc, charDigit_digitChar d hdd,
    Option.getD_none, List.foldl_cons]
  rw [parseDigitsAcc_map tail htail]

theorem foldl_msd (ds : List Nat) :
    ∀ a, ds.reverse.foldl (fun x d => 10 * x + d) a
      = a * 10 ^ ds.length + ofDigitsLE ds := by
  induction ds with
  | nil => intro a; simp [ofDigitsLE]
  | cons d tail ih =>
    intro a
    rw [List.reverse_cons, List.foldl_append, ih a]
    simp only [List.foldl_cons, List.foldl_nil, ofDigitsLE, List.length_cons]
    ring

/-- Decimal write/parse round trip: Python's `int` recovers exactly the
number that `print(n, file=f)` wrote (`str(n)` plus a newline). -/
theorem pyIntNat_pyStr (n : Nat) : pyIntNat (pyStr n ++ "\n") = some n := by
  by_cases h0 : n = 0
  · subst h0; decide
  · have hne : natDigits n ≠ [] := digitsFuel_ne_nil h0 (Nat.le_refl n)
    have hlt : ∀ d ∈ natDigits n, d < 10 := fun d hd => digitsFuel_lt_ten n n d hd
    have hrevne : (natDigits n).reverse ≠ [] := by
      simpa using hne
    have hrevlt : ∀ d ∈ (natDigits n).reverse, d < 10 := by
      intro d hd; exact hlt d (List.mem_reverse.mp hd)
    have hmapne : ((natDigits n).reverse.map digitChar) ≠ [] := by
      simpa using hrevne
    have hmapns : ∀ c ∈ (natDigits n).reverse.map digitChar, pySpace c = false := by
      intro c hc
      obtain ⟨d, hdm, rfl⟩ := List.mem_map.mp hc
      exact pySpace_digitChar d (hrevlt d hdm)
    have hdata : (pyStr n ++ "\n").data
        = (natDigits n).reverse.map digitChar ++ ['\n'] := by
      simp [pyStr, h0]
    rw [pyIntNat, hdata, pyStripChars_append_newline hmapne hmapns,
      parseDigitsAcc_map_none _ hrevne hrevlt, foldl_msd]
    simp [natDigits, ofDigitsLE_digitsFuel n n (Nat.le_refl n)]
/-!
## Claim theorems
-/

/-- Claim C3: if the current active profile equals the desired one,
`switch_audio_to` invokes no subprocess and writes no log line (it
returns the world unchanged); if they differ, it spawns exactly one
`pacmd set-card-profile` invocation and writes exactly one timestamped
line describing the change. -/
theorem c3_debounce (t a n : String) (ok : Bool) (w : World) :
    (a = n → switch_audio_to t a n ok w = .ok w)
    ∧ (a ≠ n → switch_audio_to t a n true w
        = .ok { w with logLines := w.logLines ++ [switchLine t n],
                       spawned := w.spawned
                         ++ [["pacmd", "set-card-profile", "0", n]] }) := by
  constructor
  · intro h; simp [switch_audio_to, h]
  · intro h; simp [switch_audio_to, h, writeStdout, spawnCmd]

theorem c3_debounce_witness :
    switch_audio_to "T" "output:hdmi-stereo" "output:hdmi-stereo" true emptyWorld
      = .ok emptyWorld
    ∧ switch_audio_to "T" "output:analog-stereo+input:analog-stereo"
        "output:hdmi-stereo" true emptyWorld
      = .ok { emptyWorld with
                logLines := [switchLine "T" "output:hdmi-stereo"],
                spawned := [["pacmd", "set-card-profile", "0",
                             "output:hdmi-stereo"]] } :=
  ⟨(c3_debounce "T" "output:hdmi-stereo" "output:hdmi-stereo" true emptyWorld).1 rfl,
   (c3_debounce "T" "output:analog-stereo+input:analog-stereo"
      "output:hdmi-stereo" true emptyWorld).2 (by decide)⟩

/-- Claim C4: when the log file's size exceeds `MAXLOGSIZE` (1000000),
`check_log_file_size` truncates it to size 0 and then writes exactly one
timestamped notice line (so the file ends up holding just that notice);
when the size does not exceed the bound, the world is left unchanged. -/
theorem c4_log_guard (t : String) (w : World) :
    (logSizeOf w.logLines > MAXLOGSIZE →
      check_log_file_size t w = { w with logLines := [cleanLine t] })
    ∧ (logSizeOf w.logLines ≤ MAXLOGSIZE → check_log_file_size t w = w) := by
  constructor
  · intro h; simp [check_log_file_size, h, writeStdout, truncateLog]
  · intro h
    simp only [check_log_file_size]
    rw [if_neg (by omega)]

theorem c4_log_guard_witness :
    logSizeOf bigWorld.logLines > MAXLOGSIZE
    ∧ check_log_file_size "T" bigWorld = { bigWorld with logLines := [cleanLine "T"] }
    ∧ logSizeOf emptyWorld.logLines ≤ MAXLOGSIZE
    ∧ check_log_file_size "T" emptyWorld = emptyWorld := by
  have h1 : bigLog.length = 1000001 := by
    show (String.mk (List.replicate 1000001 'a')).length = 1000001
    rw [show (String.mk (List.replicate 1000001 'a')).length
          = (List.replicate 1000001 'a').length from rfl, List.length_replicate]
  have hgt : logSizeOf bigWorld.logLines > MAXLOGSIZE := by
    show logSizeOf [bigLog] > MAXLOGSIZE
    simp only [logSizeOf, List.map_cons, List.map_nil, List.sum_cons,
      List.sum_nil, h1, MAXLOGSIZE]
    omega
  have hle : logSizeOf emptyWorld.logLines ≤ MAXLOGSIZE := by
    simp [logSizeOf, emptyWorld, MAXLOGSIZE]
  exact ⟨hgt, (c4_log_guard "T" bigWorld).1 hgt, hle,
    (c4_log_guard "T" emptyWorld).2 hle⟩

/-- Claim C7: invoking `stop` with no pid file present reports the
"not running" condition on stderr, delivers no signal to any process,
exits with code 1, and leaves everything else unchanged. -/
theorem c7_stop_not_running (w : World) (h : w.pidfile = none) :
    stopCmd w = (pushErr "Not running\n" w, 1)
    ∧ (stopCmd w).1.killed = w.killed
    ∧ (stopCmd w).1.pidfile = none
    ∧ (stopCmd w).1.logLines = w.logLines := by
  simp [stopCmd, h, pushErr]

theorem c7_stop_not_running_witness :
    stopCmd emptyWorld = (pushErr "Not running\n" emptyWorld, 1)
    ∧ (stopCmd emptyWorld).1.killed = emptyWorld.killed :=
  ⟨(c7_stop_not_running emptyWorld rfl).1, (c7_stop_not_running emptyWorld rfl).2.1⟩

/-- Claim C2 (counterexample): starting while a pid file exists does
exit with code 1 and leaves the existing pid file untouched, but the
returned world is *identical* to the input — in particular stderr and
the log are still empty, so no human-readable message was surfaced,
contradicting the claim's "no condition is silently swallowed" part. -/
theorem c2_counterexample :
    cliMain ["stumfixer", "start"] ⟨true, true, 99⟩ conflictWorld
      = .exited conflictWorld 1
    ∧ conflictWorld.errLines = []
    ∧ conflictWorld.logLines = []
    ∧ conflictWorld.pidfile = some (pyStr 500 ++ "\n") := by
  refine ⟨?_, rfl, rfl, rfl⟩
  decide

/-- Claim C2 (amended): starting while a pid file exists fails with
process exit code 1 and the world — including the existing pid file —
is left completely unchanged; in particular no message of any kind is
printed (`exit(1)` fires before any output), so the conflict is
signaled only through the exit status. -/
theorem c2_start_conflict_silent (prog c : String) (env : Env) (w : World)
    (h : w.pidfile = some c) :
    cliMain [prog, "start"] env w = .exited w 1 := by
  simp [cliMain, daemonize, h]

theorem c2_start_conflict_silent_witness :
    cliMain ["stumfixer", "start"] ⟨true, true, 99⟩ conflictWorld
      = .exited conflictWorld 1 :=
  c2_start_conflict_silent "stumfixer" (pyStr 500 ++ "\n") ⟨true, true, 99⟩
    conflictWorld rfl

/-- Claim C8 (counterexample): an unrecognized verb does *not* print the
usage line — it prints an `Unknown command 'status'` diagnostic, which
differs from the usage line; so the claim as stated fails for the input
`status`. -/
theorem c8_counterexample :
    cliMain ["stumfixer", "status"] ⟨true, true, 7⟩ emptyWorld
      = .exited (pushErr (unknownCmdLine "status") emptyWorld) 1
    ∧ (pushErr (unknownCmdLine "status") emptyWorld).errLines
        = [unknownCmdLine "status"]
    ∧ unknownCmdLine "status" ≠ usageLine "stumfixer" := by
  refine ⟨?_, rfl, ?_⟩ <;> decide

/-- Claim C8 (amended): a missing argument or extra arguments print the
usage line to stderr and exit 1; a single argument other than `start`
or `stop` prints an `Unknown command` diagnostic (not the usage line)
to stderr and exits 1. -/
theorem c8_cli_argument_errors (prog arg a b : String) (xs : List String)
    (env : Env) (w : World) (h1 : arg ≠ "start") (h2 : arg ≠ "stop") :
    cliMain [prog, arg] env w = .exited (pushErr (unknownCmdLine arg) w) 1
    ∧ cliMain [prog] env w = .exited (pushErr (usageLine prog) w) 1
    ∧ cliMain (prog :: a :: b :: xs) env w
        = .exited (pushErr (usageLine prog) w) 1 := by
  refine ⟨?_, rfl, rfl⟩
  simp [cliMain, h1, h2]

theorem c8_cli_argument_errors_witness :
    cliMain ["stumfixer", "restart"] ⟨true, true, 7⟩ emptyWorld
      = .exited (pushErr (unknownCmdLine "restart") emptyWorld) 1
    ∧ cliMain ["stumfixer"] ⟨true, true, 7⟩ emptyWorld
      = .exited (pushErr (usageLine "stumfixer") emptyWorld) 1
    ∧ cliMain ["stumfixer", "start", "now"] ⟨true, true, 7⟩ emptyWorld
      = .exited (pushErr (usageLine "stumfixer") emptyWorld) 1 :=
  c8_cli_argument_errors "stumfixer" "restart" "start" "now" [] ⟨true, true, 7⟩
    emptyWorld (by decide) (by decide)

/-- Claim C1: after a successful `daemonize` the pid file exists, the
SIGTERM handler writes exactly one timestamped shutdown line to the
redirected output stream and terminates the process (SystemExit 1), and
on every exit path — normal return, signaled termination, uncaught
fatal error — the registered atexit cleanup removes the pid file, so
the pid file exists exactly while the daemon is running. -/
theorem c1_shutdown_and_cleanup (w : World) (p : Nat) (t : String)
    (h : w.pidfile = none) :
    (daemonize w true true p).1 = .daemonized p
    ∧ ((daemonize w true true p).2).pidfile.isSome = true
    ∧ (∀ path, ((terminate path t (daemonize w true true p).2).1).pidfile = none)
    ∧ (terminate .sigterm t (daemonize w true true p).2).1.logLines
        = ((daemonize w true true p).2).logLines ++ [quitLine t]
    ∧ (terminate .sigterm t (daemonize w true true p).2).2 = 1 := by
  have hw : (daemonize w true true p).2
      = { w with pidfile := some (pyStr p ++ "\n"), cleanupRegistered := true,
                 handlerInstalled := true } := by
    simp [daemonize, h]
  refine ⟨by simp [daemonize, h], by rw [hw]; rfl, ?_, ?_, ?_⟩
  · intro path
    rw [hw]
    cases path <;>
      simp [terminate, runAtexitHooks, sigtermHandlerStep, writeStdout]
  · rw [hw]
    simp [terminate, runAtexitHooks, sigtermHandlerStep, writeStdout]
  · rw [hw]
    simp [terminate]

theorem c1_shutdown_and_cleanup_witness :
    ((terminate .fatalError "T" (daemonize emptyWorld true true 77).2).1).pidfile
      = none
    ∧ (terminate .sigterm "T" (daemonize emptyWorld true true 77).2).1.logLines
        = ((daemonize emptyWorld true true 77).2).logLines ++ [quitLine "T"]
    ∧ (terminate .sigterm "T" (daemonize emptyWorld true true 77).2).2 = 1 :=
  ⟨(c1_shutdown_and_cleanup emptyWorld 77 "T" rfl).2.2.1 ExitPath.fatalError,
   (c1_shutdown_and_cleanup emptyWorld 77 "T" rfl).2.2.2.1,
   (c1_shutdown_and_cleanup emptyWorld 77 "T" rfl).2.2.2.2⟩

/-- Claim C9: a successful `daemonize` leaves the pid file holding
exactly `str(pid)` of the final background process followed by a
newline; `stop`'s `int` parse recovers exactly that pid, and that pid
is the one SIGTERM (signal 15) is delivered to, with completion code
0. -/
theorem c9_pidfile_roundtrip (w : World) (p : Nat) (h : w.pidfile = none) :
    ((daemonize w true true p).2).pidfile = some (pyStr p ++ "\n")
    ∧ pyIntNat (pyStr p ++ "\n") = some p
    ∧ stopCmd ((daemonize w true true p).2)
      = ({ (daemonize w true true p).2 with
            killed := ((daemonize w true true p).2).killed ++ [(p, 15)] }, 0) := by
  have hw : (daemonize w true true p).2
      = { w with pidfile := some (pyStr p ++ "\n"), cleanupRegistered := true,
                 handlerInstalled := true } := by
    simp [daemonize, h]
  refine ⟨by rw [hw], pyIntNat_pyStr p, ?_⟩
  rw [hw]
  simp [stopCmd, pyIntNat_pyStr]

theorem c9_pidfile_roundtrip_witness :
    ((daemonize emptyWorld true true 4321).2).pidfile
      = some (pyStr 4321 ++ "\n")
    ∧ pyIntNat (pyStr 4321 ++ "\n") = some 4321
    ∧ stopCmd ((daemonize emptyWorld true true 4321).2)
      = ({ (daemonize emptyWorld true true 4321).2 with
            killed := ((daemonize emptyWorld true true 4321).2).killed
              ++ [(4321, 15)] }, 0) :=
  c9_pidfile_roundtrip emptyWorld 4321 rfl

/-- Claim C6: when the observation step parses no `active profile` line
from the collaborator's output, the iteration raises
`SystemError("Active profile is none")`, the error propagates out of
the control loop uncaught (no later tick runs, so no retry within the
iteration), and the process dies with the non-zero exit status 1. -/
theorem c6_observe_failure_fatal (tk : Tick) (rest : List Tick) (w : World)
    (hp : tk.popenOk = true)
    (h : (tk.output.foldl parseCardsLine (none, none)).1 = none) :
    mainIter tk w = .error (.systemError "Active profile is none")
    ∧ runLoop (tk :: rest) w = .error (.systemError "Active profile is none")
    ∧ loopExit (tk :: rest) w = some 1 := by
  rcases he : tk.output.foldl parseCardsLine (none, none) with ⟨x, y⟩
  rw [he] at h
  simp only at h
  subst h
  have hg : get_audio_info tk.popenOk tk.output
      = .error (.systemError "Active profile is none") := by
    simp [get_audio_info, hp, he]
  have hm : mainIter tk w = .error (.systemError "Active profile is none") := by
    simp [mainIter, hg]
  exact ⟨hm, by simp [runLoop, hm], by simp [loopExit, runLoop, hm]⟩

theorem c6_observe_failure_fatal_witness :
    mainIter c6tick emptyWorld = .error (.systemError "Active profile is none")
    ∧ loopExit [c6tick] emptyWorld = some 1 :=
  ⟨(c6_observe_failure_fatal c6tick [] emptyWorld rfl (by decide)).1,
   (c6_observe_failure_fatal c6tick [] emptyWorld rfl (by decide)).2.2⟩

/-- Claim C10: when the parsed output has an `active profile` line but
no `device.product.name` line, `get_audio_info` returns the product as
`none`, and the loop body's `product.startswith` then raises an
uncaught `AttributeError` that terminates the process — every
successful observation is implicitly required to include a product
name. -/
theorem c10_missing_product_fatal (tk : Tick) (rest : List Tick) (w : World)
    (a : String) (hp : tk.popenOk = true)
    (h1 : (tk.output.foldl parseCardsLine (none, none)).1 = some a)
    (h2 : (tk.output.foldl parseCardsLine (none, none)).2 = none) :
    get_audio_info tk.popenOk tk.output = .ok (a, none)
    ∧ mainIter tk w
        = .error (.attributeError "NoneType object has no attribute startswith")
    ∧ loopExit (tk :: rest) w = some 1 := by
  rcases he : tk.output.foldl parseCardsLine (none, none) with ⟨x, y⟩
  rw [he] at h1 h2
  simp only at h1 h2
  subst h1
  subst h2
  have hg : get_audio_info tk.popenOk tk.output = .ok (a, none) := by
    simp [get_audio_info, hp, he]
  have hm : mainIter tk w
      = .error (.attributeError "NoneType object has no attribute startswith") := by
    simp [mainIter, hg]
  exact ⟨hg, hm, by simp [loopExit, runLoop, hm]⟩

theorem c10_missing_product_fatal_witness :
    get_audio_info c10tick.popenOk c10tick.output
      = .ok ("output:hdmi-stereo", none)
    ∧ mainIter c10tick emptyWorld
        = .error (.attributeError "NoneType object has no attribute startswith")
    ∧ loopExit [c10tick] emptyWorld = some 1 :=
  c10_missing_product_fatal c10tick [] emptyWorld "output:hdmi-stereo" rfl
    (by decide) (by decide)

/-- Claim C5 (counterexample): in an iteration where a correction is
needed (active analog profile, BenQ product wants hdmi) and the apply
subprocess cannot be run, the control loop does *not* continue to the
next iteration: the `SystemError` escapes the loop after the first tick
and the process dies with exit status 1, even though a second healthy
tick was scheduled. -/
theorem c5_counterexample :
    runLoop [c5failTick, c5okTick] emptyWorld
      = .error (.systemError "Could not run pacmd list-cards")
    ∧ loopExit [c5failTick, c5okTick] emptyWorld = some 1 := by
  constructor <;> rfl

/-- Claim C5 (amended): when the apply collaborator fails, the raised
`SystemError` is not caught anywhere: the failing `switch_audio_to`
returns the error (having already written the pre-attempt change
announcement, the only line it logs), the loop terminates immediately
without executing any later iteration, and the process exits non-zero.
The loop does not continue. -/
theorem c5_apply_failure_fatal (t a n : String) (w : World) (tk : Tick)
    (rest : List Tick) (e : PyErr) (hneq : a ≠ n)
    (hm : mainIter tk w = .error e) :
    switch_audio_to t a n false w
      = .error (.systemError "Could not run pacmd list-cards")
    ∧ (switch_audio_to t a n false w).isOk = false
    ∧ runLoop (tk :: rest) w = .error e
    ∧ loopExit (tk :: rest) w = some 1 := by
  refine ⟨by simp [switch_audio_to, hneq], by simp [switch_audio_to, hneq, Except.isOk, Except.toBool], ?_, ?_⟩
  · simp [runLoop, hm]
  · simp [loopExit, runLoop, hm]

theorem c5_apply_failure_fatal_witness :
    switch_audio_to "T1" "output:analog-stereo+input:analog-stereo"
        "output:hdmi-stereo" false emptyWorld
      = .error (.systemError "Could not run pacmd list-cards")
    ∧ runLoop [c5failTick, c5okTick] emptyWorld
        = .error (.systemError "Could not run pacmd list-cards")
    ∧ loopExit [c5failTick, c5okTick] emptyWorld = some 1 :=
  ⟨(c5_apply_failure_fatal "T1" "output:analog-stereo+input:analog-stereo"
      "output:hdmi-stereo" emptyWorld c5failTick [c5okTick]
      (.systemError "Could not run pacmd list-cards") (by decide) (by rfl)).1,
   (c5_apply_failure_fatal "T1" "output:analog-stereo+input:analog-stereo"
      "output:hdmi-stereo" emptyWorld c5failTick [c5okTick]
      (.systemError "Could not run pacmd list-cards") (by decide) (by rfl)).2.2.1,
   (c5_apply_failure_fatal "T1" "output:analog-stereo+input:analog-stereo"
      "output:hdmi-stereo" emptyWorld c5failTick [c5okTick]
      (.systemError "Could not run pacmd list-cards") (by decide) (by rfl)).2.2.2⟩
